import Mathlib

/-!
Verification development for the price-normalization core of the shopping
assistant (`backend.py`): currency detection, magnitude extraction,
INR conversion, row building and summary formatting.

Modelling conventions:
* Python strings are Lean `String`; substring containment (`sym in s`)
  is the executable `occursIn` below.
* Python floats are modelled as exact rationals `ℚ`.  `round(x, 2)`
  is round-half-to-even on the number of cents, and the f-string
  rendering of such a rounded float is `pyRound2Repr` (Python's repr of
  a float that carries at most two decimals prints the shortest decimal:
  `4150.0`, `7469.17`, `0.5`).  All concrete values appearing in the
  theorems below are exactly representable, so the idealization is exact
  at every evaluated input.
* A Python dict literal iterates in insertion order (CPython ≥ 3.7), so
  `_CURRENCY_MAP` is the ordered association list below.
* `None`-able fields of provider items are `Option String`; Python's
  `x or "N/A"` maps `none` and `""` to `"N/A"` (both are falsy).
-/

namespace Backend

/-- Test whether the list `n` is an initial segment of `h`. -/
def hdMatches : List Char → List Char → Bool
  | [], _ => true
  | _ :: _, [] => false
  | a :: as, b :: bs => a == b && hdMatches as bs

/-- Test whether the list `n` occurs contiguously inside `h`
(Python's `n in h` on strings). -/
def occursIn (n : List Char) : List Char → Bool
  | [] => n.isEmpty
  | b :: bs => hdMatches n (b :: bs) || occursIn n bs

/-- The `_CURRENCY_MAP` dict of `backend.py`, in insertion order. -/
def _CURRENCY_MAP : List (String × String) :=
  [("$", "USD"), ("US$", "USD"), ("USD", "USD"),
   ("€", "EUR"), ("EUR", "EUR"),
   ("£", "GBP"), ("GBP", "GBP"),
   ("₹", "INR"), ("INR", "INR")]

/-- The `for sym, cur in _CURRENCY_MAP.items()` loop body of
`_detect_currency`: first token occurring in `s` wins, else `"USD"`. -/
def lookupCur : List (String × String) → String → String
  | [], _ => "USD"
  | (sym, cur) :: rest, s =>
      if occursIn sym.data s.data then cur else lookupCur rest s

/-- Function `_detect_currency` of `backend.py`. -/
def _detect_currency (s : String) : String :=
  if s = "" then "USD" else lookupCur _CURRENCY_MAP s

example : _detect_currency "$89.99" = "USD" := by decide
example : _detect_currency "₹1999" = "INR" := by decide
example : _detect_currency "EUR$" = "USD" := by decide
example : _detect_currency "XYZ 50" = "USD" := by decide

/-! ## Magnitude extraction

`_extract_first_number` runs `re.search` with the pattern
`(\d{1,3}(?:,\d{3})*(?:\.\d+)?)` over `price_str.replace(",", "")`.
Every sub-pattern after a successful greedy step is optional, so the
regex engine never backtracks: the match starts at the first digit,
takes at most three digits, then zero or more `,ddd` groups, then an
optional `.d+` fraction.  The result of the whole match is fed to
`float(...)` inside `try/except` (a match containing a comma would make
`float` raise, giving `None`). -/

/-- Shape of a match of `\d{1,3}(?:,\d{3})*(?:\.\d+)?`. -/
structure NumMatch where
  intPart : List Char
  commaGroups : List (List Char)
  fracPart : Option (List Char)
  deriving DecidableEq

/-- Greedy `(?:,\d{3})*`: consume `,ddd` groups while they match. -/
def commaLoop : List Char → List (List Char) × List Char
  | ',' :: a :: b :: c :: rest =>
      if a.isDigit && b.isDigit && c.isDigit then
        let p := commaLoop rest
        ([a, b, c] :: p.1, p.2)
      else ([], ',' :: a :: b :: c :: rest)
  | l => ([], l)

/-- Greedy `(?:\.\d+)?`: a dot followed by at least one digit. -/
def fracAt : List Char → Option (List Char) × List Char
  | '.' :: rest =>
      let ds := rest.takeWhile Char.isDigit
      if ds.isEmpty then (none, '.' :: rest)
      else (some ds, rest.drop ds.length)
  | l => (none, l)

/-- Match the numeric pattern at a position whose head is a digit:
`\d{1,3}` greedily takes at most three digits of the leading run. -/
def matchNum (s : List Char) : NumMatch :=
  let ip := (s.takeWhile Char.isDigit).take 3
  let r1 := s.drop ip.length
  let p := commaLoop r1
  let q := fracAt p.2
  ⟨ip, p.1, q.1⟩

/-- Semantics of `re.search`: try each start position left to right;
the pattern can only start at a digit. -/
def findNum : List Char → Option NumMatch
  | [] => none
  | c :: rest => if c.isDigit then some (matchNum (c :: rest)) else findNum rest

/-- Decimal value of a digit list. -/
def digitsToNat (ds : List Char) : ℕ :=
  ds.foldl (fun a c => 10 * a + (c.toNat - 48)) 0

/-- Evaluation of `float(match.group(1))` under `try/except`: a comma in the matched
text makes `float` raise (→ `none`); otherwise the decimal value. -/
def matchValue (m : NumMatch) : Option ℚ :=
  if m.commaGroups.isEmpty then
    some ((digitsToNat m.intPart : ℚ) +
      match m.fracPart with
      | none => 0
      | some f => (digitsToNat f : ℚ) / (10 ^ f.length : ℚ))
  else none

/-- Function `_extract_first_number` of `backend.py`. -/
def _extract_first_number (s : String) : Option ℚ :=
  if s = "" then none
  else
    match findNum (s.data.filter (fun c => c ≠ ',')) with
    | none => none
    | some m => matchValue m

/-! ## Rounding and float rendering -/

/-- Floor of a rational as an integer. -/
def qfloor (q : ℚ) : ℤ := q.num.fdiv q.den

/-- Python's `round` to an integer: round half to even. -/
def pyRoundInt (q : ℚ) : ℤ :=
  let f := qfloor q
  let r := q - (f : ℚ)
  if r < 1 / 2 then f
  else if 1 / 2 < r then f + 1
  else if f.natAbs % 2 = 0 then f else f + 1

/-- Shortest-decimal rendering of a number of cents `m` (Python float
repr of a value with at most two decimals: `4150.0`, `7469.17`, `0.5`). -/
def centsRepr (m : ℤ) : String :=
  let sign := if m < 0 then "-" else ""
  let n := m.natAbs
  let ip := n / 100
  let fr := n % 100
  if fr = 0 then sign ++ toString ip ++ ".0"
  else if fr % 10 = 0 then sign ++ toString ip ++ "." ++ toString (fr / 10)
  else if fr < 10 then sign ++ toString ip ++ ".0" ++ toString fr
  else sign ++ toString ip ++ "." ++ toString fr

/-- Rendering of `round(x, 2)` inside an f-string: round to a number of
cents, then print the shortest decimal. -/
def pyRound2Repr (x : ℚ) : String :=
  centsRepr (pyRoundInt (x * 100))

example : centsRepr 415000 = "4150.0" := by decide
example : centsRepr 746917 = "7469.17" := by decide

/-! ## Conversion -/

/-- Function `convert_to_inr` of `backend.py` (rates default to
`usd_inr = 83.0, eur_inr = 90.0, gbp_inr = 105.0` at call sites). -/
def convert_to_inr (price_str : String)
    (usd_inr eur_inr gbp_inr : ℚ) : String :=
  if price_str = "" then "N/A"
  else
    let cur := _detect_currency price_str
    match _extract_first_number price_str with
    | none => price_str
    | some val =>
        if cur = "INR" then "₹" ++ pyRound2Repr val
        else if cur = "USD" then "₹" ++ pyRound2Repr (val * usd_inr)
        else if cur = "EUR" then "₹" ++ pyRound2Repr (val * eur_inr)
        else if cur = "GBP" then "₹" ++ pyRound2Repr (val * gbp_inr)
        else price_str

/-- Behaviour of `convert_to_inr` on a possibly-`None` argument: `if not price_str`
is taken for `None` exactly as for `""`. -/
def convert_to_inr_opt (o : Option String)
    (usd_inr eur_inr gbp_inr : ℚ) : String :=
  match o with
  | none => "N/A"
  | some s => convert_to_inr s usd_inr eur_inr gbp_inr

/-! ## Rows and summary -/

/-- One provider item as used by the row builders: any of the three
consumed fields may be absent (`image` is never read). -/
structure RawQuote where
  title : Option String
  price : Option String
  link : Option String

/-- The provider response structure; `shopping` may be absent
(provider error), in which case `.get("shopping", [])` yields `[]`. -/
structure PricesJson where
  shopping : Option (List RawQuote)

/-- Access `prices_json.get("shopping", [])`. -/
def getShopping (p : PricesJson) : List RawQuote := p.shopping.getD []

/-- Python's `x or "N/A"` on a nullable string field: `None` and `""`
are both falsy. -/
def orNA : Option String → String
  | none => "N/A"
  | some s => if s = "" then "N/A" else s

/-- One dict produced by `make_price_rows`; the Lean fields stand for
the keys `"Title"`, `"Price (Original)"`, `"Price (INR)"`, `"Link"`. -/
structure PriceRow where
  title : String
  priceOriginal : String
  priceINR : String
  link : String

/-- Function `make_price_rows` of `backend.py`.  Note that the Python function
takes only `usd_inr`; `convert_to_inr` is called with `usd_inr=usd_inr`
alone, so the EUR and GBP rates are always the defaults `90.0`, `105.0`. -/
def make_price_rows (pj : PricesJson) (top_n : ℕ) (usd_inr : ℚ) : List PriceRow :=
  ((getShopping pj).take top_n).map (fun it =>
    { title := orNA it.title
      priceOriginal := orNA it.price
      priceINR := convert_to_inr (orNA it.price) usd_inr 90 105
      link := orNA it.link })

/-- Function `summarize_prices_for_prompt` of `backend.py` (same `usd_inr`-only
rate passing as `make_price_rows`). -/
def summarize_prices_for_prompt (pj : PricesJson) (top_n : ℕ) (usd_inr : ℚ) : String :=
  String.intercalate "\n" (((getShopping pj).take top_n).map (fun item =>
    "- " ++ orNA item.title ++ " | " ++ convert_to_inr (orNA item.price) usd_inr 90 105 ++
      " (orig: " ++ orNA item.price ++ ") | " ++ orNA item.link))

/-- The per-item row function of `make_price_rows`, named for reuse in
statements. -/
def rowOf (u : ℚ) (it : RawQuote) : PriceRow :=
  { title := orNA it.title
    priceOriginal := orNA it.price
    priceINR := convert_to_inr (orNA it.price) u 90 105
    link := orNA it.link }

/-- The line format of `summarize_prices_for_prompt`, applied to a row. -/
def renderRow (r : PriceRow) : String :=
  "- " ++ r.title ++ " | " ++ r.priceINR ++ " (orig: " ++ r.priceOriginal ++ ") | " ++ r.link

/-! ## Evaluation lemmas

Rational arithmetic does not reduce inside the kernel (its
normalization runs `Nat.gcd`), so concrete runs of the pipeline are
computed through the following lemmas: the character-level work is
settled by `decide`, the rational arithmetic by `norm_num`. -/

lemma matchValue_int (ds : List Char) (n : ℕ) (h : digitsToNat ds = n) :
    matchValue ⟨ds, [], none⟩ = some (n : ℚ) := by
  simp [matchValue, h]

lemma matchValue_frac (ds fs : List Char) (a b : ℕ)
    (hi : digitsToNat ds = a) (hf : digitsToNat fs = b) :
    matchValue ⟨ds, [], some fs⟩ = some ((a : ℚ) + (b : ℚ) / 10 ^ fs.length) := by
  simp [matchValue, hi, hf]

lemma extract_eval (s : String) (m : NumMatch) (v : ℚ)
    (h0 : s ≠ "")
    (hf : findNum (s.data.filter (fun c => c ≠ ',')) = some m)
    (hv : matchValue m = some v) :
    _extract_first_number s = some v := by
  unfold _extract_first_number
  rw [if_neg h0, hf]
  exact hv

lemma qfloor_intCast (n : ℤ) : qfloor (n : ℚ) = n := by
  simp [qfloor, Int.fdiv_one]

lemma pyRoundInt_intCast (n : ℤ) : pyRoundInt (n : ℚ) = n := by
  simp [pyRoundInt, qfloor_intCast]

lemma pyRound2Repr_cents (x : ℚ) (m : ℤ) (h : x * 100 = (m : ℚ)) :
    pyRound2Repr x = centsRepr m := by
  rw [pyRound2Repr, h, pyRoundInt_intCast]

lemma convert_eval (s : String) (u e g : ℚ) (cur : String) (v : ℚ)
    (h0 : s ≠ "")
    (hc : _detect_currency s = cur)
    (hv : _extract_first_number s = some v) :
    convert_to_inr s u e g =
      (if cur = "INR" then "₹" ++ pyRound2Repr v
       else if cur = "USD" then "₹" ++ pyRound2Repr (v * u)
       else if cur = "EUR" then "₹" ++ pyRound2Repr (v * e)
       else if cur = "GBP" then "₹" ++ pyRound2Repr (v * g)
       else s) := by
  simp [convert_to_inr, h0, hc, hv]

example : _extract_first_number "USD 100" = some 100 := by
  rw [extract_eval "USD 100" ⟨['1', '0', '0'], [], none⟩ _ (by decide) (by decide)
    (matchValue_int _ 100 (by decide))]
  norm_num

example : _extract_first_number "from $89.99" = some (8999 / 100) := by
  rw [extract_eval "from $89.99" ⟨['8', '9'], [], some ['9', '9']⟩ _ (by decide) (by decide)
    (matchValue_frac _ _ 89 99 (by decide) (by decide))]
  norm_num

example : _extract_first_number "" = none := by decide
example : _extract_first_number "no digits here" = none := by decide

example : convert_to_inr "XYZ 50" 83 90 105 = "₹4150.0" := by
  have hex : _extract_first_number "XYZ 50" = some 50 := by
    rw [extract_eval "XYZ 50" ⟨['5', '0'], [], none⟩ _ (by decide) (by decide)
      (matchValue_int _ 50 (by decide))]
    norm_num
  rw [convert_eval "XYZ 50" 83 90 105 "USD" 50 (by decide) (by decide) hex]
  simp only [String.reduceEq, reduceIte]
  rw [pyRound2Repr_cents (50 * 83 : ℚ) 415000 (by norm_num)]
  decide

/-! ## Structural lemmas -/

lemma make_price_rows_eq_map (pj : PricesJson) (n : ℕ) (u : ℚ) :
    make_price_rows pj n u = ((getShopping pj).take n).map (rowOf u) := rfl

lemma make_price_rows_getElem (pj : PricesJson) (n : ℕ) (u : ℚ) (i : ℕ) (hi : i < n) :
    (make_price_rows pj n u)[i]? = ((getShopping pj)[i]?).map (rowOf u) := by
  rw [make_price_rows_eq_map, List.getElem?_map, List.getElem?_take_of_lt hi]

lemma lookupCur_no_token (l : List (String × String)) (s : String)
    (h : ∀ p ∈ l, occursIn p.1.data s.data = false) : lookupCur l s = "USD" := by
  induction l with
  | nil => rfl
  | cons p rest ih =>
      obtain ⟨sym, cur⟩ := p
      have hh := h (sym, cur) (List.mem_cons_self _ _)
      simp only [lookupCur]
      simp only at hh
      rw [hh]
      simp only [Bool.false_eq_true, if_false]
      exact ih fun q hq => h q (List.mem_cons_of_mem _ hq)

lemma _detect_currency_no_token (s : String)
    (h : ∀ p ∈ _CURRENCY_MAP, occursIn p.1.data s.data = false) :
    _detect_currency s = "USD" := by
  unfold _detect_currency
  split
  · rfl
  · exact lookupCur_no_token _ _ h

lemma _detect_currency_cases (s : String) :
    _detect_currency s = "USD" ∨ _detect_currency s = "EUR" ∨
      _detect_currency s = "GBP" ∨ _detect_currency s = "INR" := by
  unfold _detect_currency
  split
  · exact Or.inl rfl
  · simp only [_CURRENCY_MAP, lookupCur]
    split_ifs <;> tauto

lemma orNA_ne_empty (o : Option String) : orNA o ≠ "" := by
  cases o with
  | none => decide
  | some s =>
      simp only [orNA]
      split_ifs with h
      · decide
      · exact h

lemma rupee_append_ne_empty (t : String) : "₹" ++ t ≠ "" := by
  intro h
  have hl : ("₹" ++ t).length = ("" : String).length := by rw [h]
  rw [String.length_append] at hl
  have h1 : ("₹" : String).length = 1 := rfl
  have h2 : ("" : String).length = 0 := rfl
  omega

lemma convert_ne_empty (s : String) (u e g : ℚ) (h : s ≠ "") :
    convert_to_inr s u e g ≠ "" := by
  simp only [convert_to_inr, if_neg h]
  cases hext : _extract_first_number s with
  | none => exact h
  | some v => split_ifs <;> first | exact rupee_append_ne_empty _ | exact h

/-! ## Claims -/

/-- C1: the spec says `extract` strips commas and then parses the first
maximal run `digit+ ('.' digit+)?`, so that `extract("$1,234.50")` would
be `1234.50`.  The code instead matches `\d{1,3}(?:,\d{3})*(?:\.\d+)?`
against the comma-stripped string: the comma-group branch can never
fire, the integer part is capped at three digits, and the fraction is
only taken if a dot follows them.  On `"$1,234.50"` the match is
`"123"`, so the code returns `123.0`, not `1234.50`.  The absent cases
of the claim do hold. -/
theorem C1_extract_truncates_after_comma_strip :
    _extract_first_number "$1,234.50" = some 123 ∧
    _extract_first_number "$1,234.50" ≠ some (2469 / 2) ∧
    _extract_first_number "" = none ∧
    _extract_first_number "no digits here" = none := by
  have h : _extract_first_number "$1,234.50" = some 123 := by
    rw [extract_eval "$1,234.50" ⟨['1', '2', '3'], [], none⟩ _ (by decide) (by decide)
      (matchValue_int _ 123 (by decide))]
    norm_num
  refine ⟨h, ?_, by decide, by decide⟩
  rw [h]
  simp only [ne_eq, Option.some.injEq]
  norm_num

/-- C2 counterexample: the claim says `convert("XYZ 50", rates)` is the
unchanged string for every rate table, because no currency token
occurs.  In the code `_detect_currency` falls back to `"USD"` and the
extracted `50` is multiplied by the USD rate, so with the default rates
the result is `"₹4150.0"`, not `"XYZ 50"`. -/
theorem C2_counterexample_usd_fallback_converts :
    convert_to_inr "XYZ 50" 83 90 105 = "₹4150.0" ∧
    convert_to_inr "XYZ 50" 83 90 105 ≠ "XYZ 50" := by
  have hex : _extract_first_number "XYZ 50" = some 50 := by
    rw [extract_eval "XYZ 50" ⟨['5', '0'], [], none⟩ _ (by decide) (by decide)
      (matchValue_int _ 50 (by decide))]
    norm_num
  have h : convert_to_inr "XYZ 50" 83 90 105 = "₹4150.0" := by
    rw [convert_eval "XYZ 50" 83 90 105 "USD" 50 (by decide) (by decide) hex]
    simp only [String.reduceEq, reduceIte]
    rw [pyRound2Repr_cents (50 * 83 : ℚ) 415000 (by norm_num)]
    decide
  exact ⟨h, by rw [h]; decide⟩

/-- C2 amended: for every input in which no token of the currency table
occurs, detection falls back to USD.  `convert` then returns `"N/A"` on
the empty string, the input unchanged when no number can be extracted,
and otherwise the extracted value multiplied by the caller's USD rate —
pass-through happens only in the no-number case, not for every
token-free input. -/
theorem C2_no_token_falls_back_to_usd (s : String) (u e g : ℚ)
    (h : ∀ p ∈ _CURRENCY_MAP, occursIn p.1.data s.data = false) :
    convert_to_inr s u e g =
      (if s = "" then "N/A"
       else
         match _extract_first_number s with
         | none => s
         | some v => "₹" ++ pyRound2Repr (v * u)) := by
  have hc := _detect_currency_no_token s h
  by_cases h0 : s = ""
  · simp [convert_to_inr, h0]
  · rw [if_neg h0]
    cases hext : _extract_first_number s with
    | none => simp [convert_to_inr, h0, hc, hext]
    | some v => simp [convert_to_inr, h0, hc, hext]

/-- Witness for C2's amended theorem at `"XYZ 50"`. -/
theorem C2_no_token_falls_back_to_usd_witness :
    (∀ p ∈ _CURRENCY_MAP, occursIn p.1.data "XYZ 50".data = false) ∧
    convert_to_inr "XYZ 50" 83 90 105 =
      (if ("XYZ 50" : String) = "" then "N/A"
       else
         match _extract_first_number "XYZ 50" with
         | none => "XYZ 50"
         | some v => "₹" ++ pyRound2Repr (v * 83)) :=
  ⟨by decide, C2_no_token_falls_back_to_usd "XYZ 50" 83 90 105 (by decide)⟩

/-- C4: the claim says `convert("₹1999", rates)` yields ≈1999 in target
units for every rate table.  The INR branch indeed applies no rate, but
the extractor caps the integer run at three digits, so the value is
`199.0` and the result is `"₹199.0"` for every rate table — an order of
magnitude off the claimed ≈1999. -/
theorem C4_convert_inr_unscaled_but_truncated (u e g : ℚ) :
    convert_to_inr "₹1999" u e g = "₹199.0" := by
  have hex : _extract_first_number "₹1999" = some 199 := by
    rw [extract_eval "₹1999" ⟨['1', '9', '9'], [], none⟩ _ (by decide) (by decide)
      (matchValue_int _ 199 (by decide))]
    norm_num
  rw [convert_eval "₹1999" u e g "INR" 199 (by decide) (by decide) hex]
  simp only [String.reduceEq, reduceIte]
  rw [pyRound2Repr_cents (199 : ℚ) 19900 (by norm_num)]
  decide

/-- C6: the claim (and §4.1 of the spec) says `detect` returns the code
of the longest matching token, independent of table order.  The dict
iterates in insertion order with `"$"` before the longer tokens, so on
`"100 EUR ($110)"` — which contains the 3-character token `"EUR"` and
the 1-character token `"$"` — the code returns `"USD"`, the code of the
shorter token, not `"EUR"`. -/
theorem C6_short_token_shadows_longer :
    _detect_currency "100 EUR ($110)" = "USD" ∧
    occursIn "EUR".data "100 EUR ($110)".data = true ∧
    occursIn "$".data "100 EUR ($110)".data = true ∧
    ("EUR", "EUR") ∈ _CURRENCY_MAP := by
  exact ⟨by decide, by decide, by decide, by decide⟩

/-- C3 counterexample: `make_price_rows` accepts only the USD rate, so
a quote priced `"€10"` is converted with the default EUR rate `90.0`
regardless of the caller's table: the row shows `"₹900.0"`, while
`convert` with the caller's EUR rate `2.0` yields `"₹20.0"`. -/
theorem C3_counterexample_eur_rate_ignored :
    ¬ ∀ (pj : PricesJson) (n : ℕ) (u e g : ℚ),
        ∀ r ∈ make_price_rows pj n u,
          r.priceINR = convert_to_inr r.priceOriginal u e g := by
  intro hall
  have hex : _extract_first_number "€10" = some 10 := by
    rw [extract_eval "€10" ⟨['1', '0'], [], none⟩ _ (by decide) (by decide)
      (matchValue_int _ 10 (by decide))]
    norm_num
  have hL : convert_to_inr "€10" 83 90 105 = "₹900.0" := by
    rw [convert_eval "€10" 83 90 105 "EUR" 10 (by decide) (by decide) hex]
    simp only [String.reduceEq, reduceIte]
    rw [pyRound2Repr_cents (10 * 90 : ℚ) 90000 (by norm_num)]
    decide
  have hR : convert_to_inr "€10" 83 2 105 = "₹20.0" := by
    rw [convert_eval "€10" 83 2 105 "EUR" 10 (by decide) (by decide) hex]
    simp only [String.reduceEq, reduceIte]
    rw [pyRound2Repr_cents (10 * 2 : ℚ) 2000 (by norm_num)]
    decide
  have hmem : rowOf 83 ⟨none, some "€10", none⟩ ∈
      make_price_rows ⟨some [⟨none, some "€10", none⟩]⟩ 3 83 := by
    rw [make_price_rows_eq_map]
    exact List.mem_singleton_self _
  have h := hall ⟨some [⟨none, some "€10", none⟩]⟩ 3 83 2 105 _ hmem
  dsimp only [rowOf] at h
  rw [show orNA (some "€10") = "€10" from by decide, hL, hR] at h
  exact absurd h (by decide)

/-- C3 amended: every row's `converted_price` equals `convert` applied
to the row's (N/A-substituted) price with the caller-supplied USD rate
and the fixed defaults EUR = 90.0, GBP = 105.0; the builder exposes no
EUR/GBP rate parameter, so those two rates are never caller-supplied. -/
theorem C3_rows_convert_with_usd_rate_and_defaults (pj : PricesJson) (n : ℕ) (u : ℚ) :
    ∀ r ∈ make_price_rows pj n u,
      r.priceINR = convert_to_inr r.priceOriginal u 90 105 := by
  intro r hr
  rw [make_price_rows_eq_map] at hr
  obtain ⟨q, hq, rfl⟩ := List.mem_map.mp hr
  rfl

/-- Witness for C3's amended theorem on a one-quote input. -/
theorem C3_rows_convert_with_usd_rate_and_defaults_witness :
    (rowOf 83 ⟨none, some "€10", none⟩).priceINR =
      convert_to_inr (rowOf 83 ⟨none, some "€10", none⟩).priceOriginal 83 90 105 :=
  C3_rows_convert_with_usd_rate_and_defaults ⟨some [⟨none, some "€10", none⟩]⟩ 3 83 _
    (by rw [make_price_rows_eq_map]; exact List.mem_singleton_self _)

/-- C5: `make_price_rows` returns exactly `min top_n (number of
quotes)` rows, in provider order, each quote mapped to its row with
missing `title`/`price`/`link` replaced by `"N/A"` (as `rowOf` does). -/
theorem C5_bounded_rows_in_order (pj : PricesJson) (n : ℕ) (u : ℚ) :
    (make_price_rows pj n u).length = min n (getShopping pj).length ∧
    ∀ i : ℕ, i < n →
      (make_price_rows pj n u)[i]? = ((getShopping pj)[i]?).map (rowOf u) := by
  constructor
  · rw [make_price_rows_eq_map, List.length_map, List.length_take]
  · intro i hi
    exact make_price_rows_getElem pj n u i hi

/-- Witness for C5 on a two-quote input with `top_n = 3`. -/
theorem C5_bounded_rows_in_order_witness :
    ((0 : ℕ) < 3) ∧
    (make_price_rows ⟨some [⟨some "A", some "$5", some "L"⟩, ⟨none, none, none⟩]⟩ 3 83)[0]? =
      ((getShopping ⟨some [⟨some "A", some "$5", some "L"⟩, ⟨none, none, none⟩]⟩)[0]?).map
        (rowOf 83) :=
  ⟨by decide,
   (C5_bounded_rows_in_order ⟨some [⟨some "A", some "$5", some "L"⟩, ⟨none, none, none⟩]⟩
      3 83).2 0 (by decide)⟩

/-- C7: `summarize_prices_for_prompt` renders exactly the rows of
`make_price_rows`, one line `- {title} | {converted} (orig: {price}) |
{link}` per row, joined by newlines, and yields `""` on an empty quote
sequence. -/
theorem C7_summary_renders_rows (pj : PricesJson) (n : ℕ) (u : ℚ) :
    summarize_prices_for_prompt pj n u =
      String.intercalate "\n" ((make_price_rows pj n u).map renderRow) ∧
    (getShopping pj = [] → summarize_prices_for_prompt pj n u = "") := by
  constructor
  · rw [make_price_rows_eq_map, List.map_map]
    rfl
  · intro h
    unfold summarize_prices_for_prompt
    rw [h, List.take_nil, List.map_nil]
    rfl

/-- Witness for C7 on an absent `shopping` field. -/
theorem C7_summary_renders_rows_witness :
    summarize_prices_for_prompt ⟨none⟩ 5 83 = "" :=
  (C7_summary_renders_rows ⟨none⟩ 5 83).2 rfl

/-- C8: `convert` is total (it is a Lean function into `String`); the
empty and null inputs give `"N/A"`, and every result is `"N/A"`, the
input echoed back, or a `₹`-formatted amount. -/
theorem C8_convert_total (u e g : ℚ) :
    convert_to_inr "" u e g = "N/A" ∧
    convert_to_inr_opt none u e g = "N/A" ∧
    ∀ s : String,
      convert_to_inr s u e g = "N/A" ∨ convert_to_inr s u e g = s ∨
        ∃ v : ℚ, convert_to_inr s u e g = "₹" ++ pyRound2Repr v := by
  refine ⟨rfl, rfl, ?_⟩
  intro s
  by_cases h0 : s = ""
  · left
    simp [convert_to_inr, h0]
  · simp only [convert_to_inr, if_neg h0]
    cases hext : _extract_first_number s with
    | none => exact Or.inr (Or.inl rfl)
    | some v =>
        split_ifs <;>
          first
            | exact Or.inr (Or.inr ⟨_, rfl⟩)
            | exact Or.inr (Or.inl rfl)

/-- C9: every row's `converted_price` is a non-empty string: the
substituted price is never empty, and `convert` maps a non-empty input
to `"N/A"`, a `₹`-formatted amount, or the input itself. -/
theorem C9_converted_price_nonempty (pj : PricesJson) (n : ℕ) (u : ℚ) :
    ∀ r ∈ make_price_rows pj n u, r.priceINR ≠ "" := by
  intro r hr
  rw [make_price_rows_eq_map] at hr
  obtain ⟨q, hq, rfl⟩ := List.mem_map.mp hr
  exact convert_ne_empty _ _ _ _ (orNA_ne_empty _)

/-- Witness for C9 on an all-absent quote. -/
theorem C9_converted_price_nonempty_witness :
    (rowOf 83 ⟨none, none, none⟩).priceINR ≠ "" :=
  C9_converted_price_nonempty ⟨some [⟨none, none, none⟩]⟩ 2 83 _
    (by rw [make_price_rows_eq_map]; exact List.mem_singleton_self _)

/-- C10: `_detect_currency` only ever returns one of the four codes
USD, EUR, GBP, INR (never `UNKNOWN` or anything else), so the final
unknown-currency pass-through branch of `convert_to_inr` is
unreachable: whenever a value is extracted from a non-empty input, the
result is a `₹`-formatted amount through one of the four branches. -/
theorem C10_detect_closed_else_unreachable (s : String) (u e g v : ℚ)
    (h0 : s ≠ "") (hv : _extract_first_number s = some v) :
    (_detect_currency s = "USD" ∨ _detect_currency s = "EUR" ∨
      _detect_currency s = "GBP" ∨ _detect_currency s = "INR") ∧
    ∃ q : ℚ, convert_to_inr s u e g = "₹" ++ pyRound2Repr q := by
  refine ⟨_detect_currency_cases s, ?_⟩
  simp only [convert_to_inr, if_neg h0, hv]
  rcases _detect_currency_cases s with h | h | h | h <;>
    rw [h] <;> simp only [String.reduceEq, reduceIte] <;> exact ⟨_, rfl⟩

/-- Witness for C10 at `"$5"`. -/
theorem C10_detect_closed_else_unreachable_witness :
    (_detect_currency "$5" = "USD" ∨ _detect_currency "$5" = "EUR" ∨
      _detect_currency "$5" = "GBP" ∨ _detect_currency "$5" = "INR") ∧
    ∃ q : ℚ, convert_to_inr "$5" 83 90 105 = "₹" ++ pyRound2Repr q :=
  C10_detect_closed_else_unreachable "$5" 83 90 105 5 (by decide)
    (by rw [extract_eval "$5" ⟨['5'], [], none⟩ _ (by decide) (by decide)
          (matchValue_int _ 5 (by decide))]
        norm_num)

end Backend
